import Mathlib

/-!
# SensorStreamKit — verification of the message codec and transport loops

Shallow embedding of the core of the SensorStreamKit repository:

* the binary payload codecs and the message envelope codec
  (src/src/sensorstreamkit/core/message.cpp,
   src/include/sensorstreamkit/core/message.hpp);
* the bounded, cancellable publish/receive loops
  (src/src/sensorstreamkit/transport/zmq_publisher.cpp,
   src/src/sensorstreamkit/transport/zmq_subscriber.cpp);
* the subscription bookkeeping of the subscriber and the periodic
  publisher lifecycle (src/include/sensorstreamkit/transport/zmq_publisher.hpp).

Byte buffers are modelled as lists of natural numbers (one entry per byte,
values below 256 in every buffer the program itself builds).  Multi-byte
integers are copied with memcpy in the C++ source; the wire order is the
native little-endian order of the target, modelled here by explicit
little-endian byte splitting.  Float fields (f32) are moved by memcpy only —
no floating point arithmetic is performed anywhere in the codec — so each
float field is modelled by its 32-bit IEEE-754 bit pattern as a natural
number below 2^32.  Strings are modelled as raw byte lists.
-/

/-! ## Byte-level primitives -/

/-- Little-endian byte decomposition of a natural number into `w` bytes.
Models what `std::memcpy(dst, &field, w)` writes for a `w`-byte unsigned
integer field on a little-endian target. -/
def leBytes : Nat → Nat → List Nat
  | 0, _ => []
  | w + 1, n => n % 256 :: leBytes w (n / 256)

/-- Value of a little-endian byte list.  Models what
`std::memcpy(&field, src, w)` makes a `w`-byte unsigned integer field hold. -/
def leVal : List Nat → Nat
  | [] => 0
  | b :: bs => b + 256 * leVal bs

/-- Decoder errors.  `malformed` models a `return std::nullopt` taken after an
explicit bounds check in the C++ source; `oob` models a `std::memcpy` whose
source range would extend past the supplied slice (undefined behaviour in the
C++, so the instrumented model reports it as a distinguished error). -/
inductive DErr
  | malformed
  | oob
deriving DecidableEq

/-- Models `std::memcpy(&dst, data.data() + off, len)` against a slice of
`data.length` bytes: if the read stays inside the slice it yields the bytes,
otherwise it reports the out-of-bounds access. -/
def memRead (data : List Nat) (off len : Nat) : Except DErr (List Nat) :=
  if off + len ≤ data.length then .ok ((data.drop off).take len) else .error .oob

/-- Read a `w`-byte little-endian unsigned integer at offset `off`.
Models a `std::memcpy` into a `uintN_t` local followed by using its value. -/
def readU (data : List Nat) (off w : Nat) : Except DErr Nat :=
  match memRead data off w with
  | .ok bs => .ok (leVal bs)
  | .error e => .error e

/-! ## MessageHeader (message.hpp / message.cpp) -/

/-- Fixed 16-byte header: timestamp (u64), sequence number (u32),
message type (u16), reserved (u16). -/
structure MessageHeader where
  timestamp_ns : Nat
  sequence_number : Nat
  message_type : Nat
  reserved : Nat
deriving DecidableEq

/-- `MessageHeader::serialized_size` = 8 + 4 + 2 + 2. -/
def MessageHeader.serialized_size : Nat := 16

/-- `MessageHeader::serialize`: appends the four fields, in declared order and
at offsets 0, 8, 12, 14, to the end of the growable buffer. -/
def MessageHeader.serialize (h : MessageHeader) (buffer : List Nat) : List Nat :=
  buffer ++ leBytes 8 h.timestamp_ns ++ leBytes 4 h.sequence_number
         ++ leBytes 2 h.message_type ++ leBytes 2 h.reserved

/-- `MessageHeader::deserialize`, instrumented with the distinction between a
checked failure (malformed) and an out-of-slice memcpy (oob). -/
def MessageHeader.deserializeE (data : List Nat) : Except DErr MessageHeader :=
  if data.length < MessageHeader.serialized_size then .error .malformed else
  match readU data 0 8 with
  | .error e => .error e
  | .ok ts =>
  match readU data 8 4 with
  | .error e => .error e
  | .ok sq =>
  match readU data 12 2 with
  | .error e => .error e
  | .ok mt =>
  match readU data 14 2 with
  | .error e => .error e
  | .ok rv => .ok ⟨ts, sq, mt, rv⟩

/-- `MessageHeader::deserialize` as the C++ caller sees it:
`std::optional<MessageHeader>`. -/
def MessageHeader.deserialize (data : List Nat) : Option MessageHeader :=
  (MessageHeader.deserializeE data).toOption

/-! ## CameraFrameData (message.cpp lines 38–112) -/

/-- Camera frame metadata.  String fields are raw byte lists; `timestamp_ns_`
is a u64 value; `frame_id`, `width`, `height` are u32 values. -/
structure CameraFrameData where
  sensor_id_ : List Nat
  timestamp_ns_ : Nat
  frame_id : Nat
  width : Nat
  height : Nat
  encoding : List Nat
deriving DecidableEq

/-- `CameraFrameData::serialize`: length-prefixed sensor id, fixed fields
(timestamp, frame id, width, height), then length-prefixed encoding, appended
to the pre-existing buffer.  The u32 length prefix is the string size cast to
`uint32_t`, hence taken modulo 2^32 by `leBytes 4`. -/
def CameraFrameData.serialize (d : CameraFrameData) (buffer : List Nat) : List Nat :=
  buffer ++ leBytes 4 d.sensor_id_.length ++ d.sensor_id_
         ++ leBytes 8 d.timestamp_ns_ ++ leBytes 4 d.frame_id
         ++ leBytes 4 d.width ++ leBytes 4 d.height
         ++ leBytes 4 d.encoding.length ++ d.encoding

/-- `CameraFrameData::deserialize`, mirroring the C++ statement for statement:
every bounds check of the source appears as the corresponding `if`, and every
`std::memcpy` / `assign` as a `readU` / `memRead` at the same offset. -/
def CameraFrameData.deserializeE (data : List Nat) : Except DErr CameraFrameData :=
  if data.length < 4 then .error .malformed else
  match readU data 0 4 with
  | .error e => .error e
  | .ok id_len =>
  if data.length < 4 + id_len then .error .malformed else
  match memRead data 4 id_len with
  | .error e => .error e
  | .ok sid =>
  if data.length < (4 + id_len) + (8 + 4 + 4 + 4) then .error .malformed else
  match readU data (4 + id_len) 8 with
  | .error e => .error e
  | .ok ts =>
  match readU data (4 + id_len + 8) 4 with
  | .error e => .error e
  | .ok fid =>
  match readU data (4 + id_len + 12) 4 with
  | .error e => .error e
  | .ok w =>
  match readU data (4 + id_len + 16) 4 with
  | .error e => .error e
  | .ok h =>
  if data.length < (4 + id_len + 20) + 4 then .error .malformed else
  match readU data (4 + id_len + 20) 4 with
  | .error e => .error e
  | .ok enc_len =>
  if data.length < (4 + id_len + 24) + enc_len then .error .malformed else
  match memRead data (4 + id_len + 24) enc_len with
  | .error e => .error e
  | .ok enc => .ok ⟨sid, ts, fid, w, h, enc⟩

/-- `CameraFrameData::deserialize` as the caller sees it. -/
def CameraFrameData.deserialize (data : List Nat) : Option CameraFrameData :=
  (CameraFrameData.deserializeE data).toOption

/-! ## LidarScanData (message.cpp lines 114–169) -/

/-- Lidar scan metadata.  `scan_duration_ms` is an f32 field, modelled by its
32-bit IEEE-754 bit pattern (the codec moves it with memcpy only). -/
structure LidarScanData where
  sensor_id_ : List Nat
  timestamp_ns_ : Nat
  num_points : Nat
  scan_duration_ms : Nat
deriving DecidableEq

/-- `LidarScanData::serialize`. -/
def LidarScanData.serialize (d : LidarScanData) (buffer : List Nat) : List Nat :=
  buffer ++ leBytes 4 d.sensor_id_.length ++ d.sensor_id_
         ++ leBytes 8 d.timestamp_ns_ ++ leBytes 4 d.num_points
         ++ leBytes 4 d.scan_duration_ms

/-- `LidarScanData::deserialize`, instrumented like the camera decoder. -/
def LidarScanData.deserializeE (data : List Nat) : Except DErr LidarScanData :=
  if data.length < 4 then .error .malformed else
  match readU data 0 4 with
  | .error e => .error e
  | .ok id_len =>
  if data.length < 4 + id_len then .error .malformed else
  match memRead data 4 id_len with
  | .error e => .error e
  | .ok sid =>
  if data.length < (4 + id_len) + (8 + 4 + 4) then .error .malformed else
  match readU data (4 + id_len) 8 with
  | .error e => .error e
  | .ok ts =>
  match readU data (4 + id_len + 8) 4 with
  | .error e => .error e
  | .ok np =>
  match readU data (4 + id_len + 12) 4 with
  | .error e => .error e
  | .ok sd => .ok ⟨sid, ts, np, sd⟩

/-- `LidarScanData::deserialize` as the caller sees it. -/
def LidarScanData.deserialize (data : List Nat) : Option LidarScanData :=
  (LidarScanData.deserializeE data).toOption

/-! ## ImuData (message.cpp lines 171–242) -/

/-- IMU sample.  The six f32 fields are modelled by their 32-bit bit
patterns. -/
structure ImuData where
  sensor_id_ : List Nat
  timestamp_ns_ : Nat
  accel_x : Nat
  accel_y : Nat
  accel_z : Nat
  gyro_x : Nat
  gyro_y : Nat
  gyro_z : Nat
deriving DecidableEq

/-- `ImuData::serialize`. -/
def ImuData.serialize (d : ImuData) (buffer : List Nat) : List Nat :=
  buffer ++ leBytes 4 d.sensor_id_.length ++ d.sensor_id_
         ++ leBytes 8 d.timestamp_ns_
         ++ leBytes 4 d.accel_x ++ leBytes 4 d.accel_y ++ leBytes 4 d.accel_z
         ++ leBytes 4 d.gyro_x ++ leBytes 4 d.gyro_y ++ leBytes 4 d.gyro_z

/-- `ImuData::deserialize`, instrumented like the camera decoder. -/
def ImuData.deserializeE (data : List Nat) : Except DErr ImuData :=
  if data.length < 4 then .error .malformed else
  match readU data 0 4 with
  | .error e => .error e
  | .ok id_len =>
  if data.length < 4 + id_len then .error .malformed else
  match memRead data 4 id_len with
  | .error e => .error e
  | .ok sid =>
  if data.length < (4 + id_len) + (8 + 4 + 4 + 4 + 4 + 4 + 4) then .error .malformed else
  match readU data (4 + id_len) 8 with
  | .error e => .error e
  | .ok ts =>
  match readU data (4 + id_len + 8) 4 with
  | .error e => .error e
  | .ok ax =>
  match readU data (4 + id_len + 12) 4 with
  | .error e => .error e
  | .ok ay =>
  match readU data (4 + id_len + 16) 4 with
  | .error e => .error e
  | .ok az =>
  match readU data (4 + id_len + 20) 4 with
  | .error e => .error e
  | .ok gx =>
  match readU data (4 + id_len + 24) 4 with
  | .error e => .error e
  | .ok gy =>
  match readU data (4 + id_len + 28) 4 with
  | .error e => .error e
  | .ok gz => .ok ⟨sid, ts, ax, ay, az, gx, gy, gz⟩

/-- `ImuData::deserialize` as the caller sees it. -/
def ImuData.deserialize (data : List Nat) : Option ImuData :=
  (ImuData.deserializeE data).toOption

/-! ## Message envelope (message.hpp lines 131–176) -/

/-- `Message<T>`: one header plus one payload value. -/
structure Message (α : Type) where
  header_ : MessageHeader
  payload_ : α
deriving DecidableEq

/-- `Message<T>::deserialize`, generic in the payload decoder `pd`
(the C++ `T::deserialize`): fail on fewer than 16 bytes, decode the header
from the first 16 bytes, then delegate the remaining bytes to the payload
decoder. -/
def Message.deserialize (pd : List Nat → Option α) (data : List Nat) : Option (Message α) :=
  if data.length < MessageHeader.serialized_size then none else
  match MessageHeader.deserialize (data.take MessageHeader.serialized_size) with
  | none => none
  | some h =>
  match pd (data.drop MessageHeader.serialized_size) with
  | none => none
  | some p => some ⟨h, p⟩

/-! ## ZmqPublisher::publish_raw (zmq_publisher.cpp lines 91–137)

The poll loop is modelled by a trace of loop iterations.  Each iteration
records what the environment would answer at that point: the value of
`stoken.stop_requested()` at the top of the loop, the elapsed wall-clock
milliseconds since `start_time`, the return value of `zmq::poll`, whether
`revents` has `ZMQ_POLLOUT` set, and whether the two-frame send throws
`zmq::error_t`.  A trace that runs out while the loop would keep going is
reported as the distinguished outcome `pending` (the call has not returned
yet). -/

/-- One iteration of the publish poll loop, as seen from the environment. -/
structure PubIter where
  stop_requested : Bool
  elapsed_ms : Nat
  poll_rc : Int
  pollout : Bool
  send_throws : Bool
deriving DecidableEq

/-- Which `return` statement of `publish_raw` fired (or `pending`: none yet). -/
inductive PubResult
  | notBound
  | timeout
  | pollError
  | sendError
  | success
  | cancelled
  | pending
deriving DecidableEq

/-- Observable result of a `publish_raw` call: the return taken, the value of
the `messages_sent_` counter afterwards, and how many times `zmq::poll` ran. -/
structure PubOutcome where
  result : PubResult
  messages_sent : Nat
  polls : Nat
deriving DecidableEq

/-- The `while (!stoken.stop_requested())` loop of `publish_raw`:
check cancellation, then (unless the configured timeout is negative) the
elapsed-time bound, then poll; on a negative poll return fail, on
write-readiness attempt the two-frame send, otherwise loop. -/
def publishLoop (timeout_ms : Int) (sent polls : Nat) : List PubIter → PubOutcome
  | [] => ⟨.pending, sent, polls⟩
  | it :: rest =>
    if it.stop_requested then ⟨.cancelled, sent, polls⟩
    else if ¬ timeout_ms < 0 ∧ (it.elapsed_ms : Int) ≥ timeout_ms then
      ⟨.timeout, sent, polls⟩
    else if it.poll_rc < 0 then ⟨.pollError, sent, polls + 1⟩
    else if it.poll_rc > 0 ∧ it.pollout then
      if it.send_throws then ⟨.sendError, sent, polls + 1⟩
      else ⟨.success, sent + 1, polls + 1⟩
    else publishLoop timeout_ms sent (polls + 1) rest

/-- `ZmqPublisher::publish_raw`: fail fast when not bound, otherwise run the
poll loop.  `sent` is the value of `messages_sent_` at entry. -/
def ZmqPublisher.publish_raw (bound : Bool) (timeout_ms : Int) (sent : Nat)
    (trace : List PubIter) : PubOutcome :=
  if ¬ bound then ⟨.notBound, sent, 0⟩
  else publishLoop timeout_ms sent 0 trace

/-! ## ZmqSubscriber (zmq_subscriber.cpp) -/

/-- One iteration of the receive poll loop.  `frames` is the multipart
message at the head of the socket queue when the poll reports
read-readiness (one entry per ZeroMQ frame); `recv_throws` models a
`zmq::error_t` thrown inside the try block. -/
structure SubIter where
  stop_requested : Bool
  elapsed_ms : Nat
  poll_rc : Int
  pollin : Bool
  frames : List (List Nat)
  recv_throws : Bool
deriving DecidableEq

/-- Which `return` statement of `receive_raw` fired.  `recvFail` covers every
`return std::nullopt` taken inside the readiness branch (failed first recv,
single-part message, failed second recv, caught exception). -/
inductive SubResult
  | notConnected
  | timeout
  | pollError
  | recvFail
  | success (data : List Nat)
  | cancelled
  | pending
deriving DecidableEq

/-- True exactly on the `success` constructor. -/
def SubResult.isSuccess : SubResult → Bool
  | .success _ => true
  | _ => false

/-- Observable result of a `receive_raw` call: the return taken, the counter
afterwards, the number of polls, and the frames of the current multipart
message still sitting unconsumed on the socket when the call returned. -/
structure SubOutcome where
  result : SubResult
  messages_received : Nat
  polls : Nat
  undrained : List (List Nat)
deriving DecidableEq

/-- The `while (socket_->get(zmq::sockopt::rcvmore))` drain loop: receive and
discard frames until the current multipart message is exhausted; returns the
frames still unconsumed afterwards. -/
def drainLoop : List (List Nat) → List (List Nat)
  | [] => []
  | _ :: rest => drainLoop rest

/-- The readiness branch of `receive_raw`: receive the topic frame, require a
second part, receive the data frame, drain any extra parts, and return the
data frame.  Yields the returned value (none for the nullopt returns) and the
frames of this message left on the socket. -/
def handleReadable : List (List Nat) → Option (List Nat) × List (List Nat)
  | [] => (none, [])
  | _topic :: rest =>
    match rest with
    | [] => (none, [])
    | dataMsg :: extra => (some dataMsg, drainLoop extra)

/-- The `while (!stoken.stop_requested())` loop of `receive_raw`. -/
def receiveLoop (timeout_ms : Int) (recvd polls : Nat) : List SubIter → SubOutcome
  | [] => ⟨.pending, recvd, polls, []⟩
  | it :: rest =>
    if it.stop_requested then ⟨.cancelled, recvd, polls, []⟩
    else if ¬ timeout_ms < 0 ∧ (it.elapsed_ms : Int) ≥ timeout_ms then
      ⟨.timeout, recvd, polls, []⟩
    else if it.poll_rc < 0 then ⟨.pollError, recvd, polls + 1, []⟩
    else if it.poll_rc > 0 ∧ it.pollin then
      if it.recv_throws then ⟨.recvFail, recvd, polls + 1, it.frames⟩
      else
        match handleReadable it.frames with
        | (none, left) => ⟨.recvFail, recvd, polls + 1, left⟩
        | (some d, left) => ⟨.success d, recvd + 1, polls + 1, left⟩
    else receiveLoop timeout_ms recvd (polls + 1) rest

/-- `ZmqSubscriber::receive_raw`: fail fast when not connected, otherwise run
the poll loop.  `recvd` is the value of `messages_received_` at entry. -/
def ZmqSubscriber.receive_raw (connected : Bool) (timeout_ms : Int) (recvd : Nat)
    (trace : List SubIter) : SubOutcome :=
  if ¬ connected then ⟨.notConnected, recvd, 0, []⟩
  else receiveLoop timeout_ms recvd 0 trace

/-- `ZmqSubscriber::unsubscribe` (zmq_subscriber.cpp lines 94–111): fail when
not connected; fail when the topic is not in the local subscription set
(`std::set<std::string>`, modelled as a `Finset String`); then apply the
socket option, which may throw (`setsockopt_throws`), failing without touching
the set; only after that succeeds, erase the topic and report success. -/
def ZmqSubscriber.unsubscribe (connected : Bool) (subscriptions_ : Finset String)
    (topic : String) (setsockopt_throws : Bool) : Bool × Finset String :=
  if ¬ connected then (false, subscriptions_)
  else if topic ∉ subscriptions_ then (false, subscriptions_)
  else if setsockopt_throws then (false, subscriptions_)
  else (true, subscriptions_.erase topic)

/-! ## PeriodicPublisher (zmq_publisher.hpp lines 96–146)

`start()` executes `worker_thread_ = std::jthread(loop)`: a new thread is
spawned for the loop body, then the move assignment stores it into
`worker_thread_`.  Per the C++ standard, `std::jthread` move assignment first
calls `request_stop()` and then `join()` on the thread the target still owns,
if any, before adopting the new one.  Threads are modelled by an index into a
world-owned list of thread records. -/

/-- Observable state of one spawned thread. -/
structure ThreadRec where
  stop_was_requested : Bool
  joined : Bool
deriving DecidableEq

/-- All threads spawned so far; a thread id is an index into the list. -/
structure ThreadWorld where
  threads : List ThreadRec
deriving DecidableEq

/-- `std::jthread` move assignment applied to a handle that may still own a
thread: request stop and join the owned thread, if any. -/
def jthreadAssignOld (w : ThreadWorld) (old : Option Nat) : ThreadWorld :=
  match old with
  | none => w
  | some id => ⟨w.threads.set id ⟨true, true⟩⟩

/-- `PeriodicPublisher::start`: spawn the new loop thread, then move-assign it
into `worker_thread_` (stopping and joining the previously owned thread, if
any).  Returns the new world and the new value of the handle. -/
def PeriodicPublisher.start (w : ThreadWorld) (worker_thread_ : Option Nat) :
    ThreadWorld × Option Nat :=
  let newId := w.threads.length
  let w1 : ThreadWorld := ⟨w.threads ++ [⟨false, false⟩]⟩
  (jthreadAssignOld w1 worker_thread_, some newId)

/-- `PeriodicPublisher::is_running`: the handle owns a thread
(`joinable()`) whose stop state has not been requested. -/
def PeriodicPublisher.is_running (w : ThreadWorld) (worker_thread_ : Option Nat) : Bool :=
  match worker_thread_ with
  | none => false
  | some id =>
    match w.threads.get? id with
    | none => false
    | some t => ¬ t.stop_was_requested

/-! ## Helper lemmas about the byte primitives -/

theorem leBytes_length (w n : Nat) : (leBytes w n).length = w := by
  induction w generalizing n with
  | zero => rfl
  | succ k ih => simp [leBytes, ih]

theorem leVal_leBytes (w n : Nat) : leVal (leBytes w n) = n % 256 ^ w := by
  induction w generalizing n with
  | zero => simp [leBytes, leVal, Nat.mod_one]
  | succ k ih =>
    simp only [leBytes, leVal, ih]
    rw [pow_succ, mul_comm (256 ^ k) 256, Nat.mod_mul]

theorem memRead_at (data pre mid post : List Nat) (off len : Nat)
    (hdata : data = pre ++ (mid ++ post)) (hoff : off = pre.length)
    (hlen : len = mid.length) : memRead data off len = .ok mid := by
  subst hdata hoff hlen
  unfold memRead
  rw [if_pos (by simp)]
  rw [List.drop_left, List.take_left]

theorem readU_at (data pre post : List Nat) (w n off : Nat)
    (hdata : data = pre ++ (leBytes w n ++ post)) (hoff : off = pre.length) :
    readU data off w = .ok (n % 256 ^ w) := by
  unfold readU
  rw [memRead_at data pre (leBytes w n) post off w hdata hoff (leBytes_length w n).symm]
  simp [leVal_leBytes]

theorem memRead_eq_ok (data : List Nat) (off len : Nat) (h : off + len ≤ data.length) :
    memRead data off len = .ok ((data.drop off).take len) := by
  unfold memRead
  rw [if_pos h]

theorem readU_eq_ok (data : List Nat) (off w : Nat) (h : off + w ≤ data.length) :
    readU data off w = .ok (leVal ((data.drop off).take w)) := by
  unfold readU
  rw [memRead_eq_ok data off w h]

/-- The camera decoder never performs an out-of-slice memcpy: every read is
covered by the bounds check that precedes it. -/
theorem camera_deserializeE_no_oob (data : List Nat) :
    CameraFrameData.deserializeE data ≠ .error .oob := by
  unfold CameraFrameData.deserializeE
  split
  · simp
  next h1 =>
    split
    next e heq =>
      rw [readU_eq_ok data 0 4 (by omega)] at heq
      exact Except.noConfusion heq
    next id_len heq =>
      split
      · simp
      next h2 =>
        split
        next e heq2 =>
          rw [memRead_eq_ok data 4 id_len (by omega)] at heq2
          exact Except.noConfusion heq2
        next sid heq2 =>
          split
          · simp
          next h3 =>
            split
            next e heq3 =>
              rw [readU_eq_ok data (4 + id_len) 8 (by omega)] at heq3
              exact Except.noConfusion heq3
            next ts heq3 =>
              split
              next e heq4 =>
                rw [readU_eq_ok data (4 + id_len + 8) 4 (by omega)] at heq4
                exact Except.noConfusion heq4
              next fid heq4 =>
                split
                next e heq5 =>
                  rw [readU_eq_ok data (4 + id_len + 12) 4 (by omega)] at heq5
                  exact Except.noConfusion heq5
                next w heq5 =>
                  split
                  next e heq6 =>
                    rw [readU_eq_ok data (4 + id_len + 16) 4 (by omega)] at heq6
                    exact Except.noConfusion heq6
                  next h heq6 =>
                    split
                    · simp
                    next h4 =>
                      split
                      next e heq7 =>
                        rw [readU_eq_ok data (4 + id_len + 20) 4 (by omega)] at heq7
                        exact Except.noConfusion heq7
                      next enc_len heq7 =>
                        split
                        · simp
                        next h5 =>
                          split
                          next e heq8 =>
                            rw [memRead_eq_ok data (4 + id_len + 24) enc_len
                              (by omega)] at heq8
                            exact Except.noConfusion heq8
                          next enc heq8 => simp

/-- The lidar decoder never performs an out-of-slice memcpy. -/
theorem lidar_deserializeE_no_oob (data : List Nat) :
    LidarScanData.deserializeE data ≠ .error .oob := by
  unfold LidarScanData.deserializeE
  split
  · simp
  next h1 =>
    split
    next e heq =>
      rw [readU_eq_ok data 0 4 (by omega)] at heq
      exact Except.noConfusion heq
    next id_len heq =>
      split
      · simp
      next h2 =>
        split
        next e heq2 =>
          rw [memRead_eq_ok data 4 id_len (by omega)] at heq2
          exact Except.noConfusion heq2
        next sid heq2 =>
          split
          · simp
          next h3 =>
            split
            next e heq3 =>
              rw [readU_eq_ok data (4 + id_len) 8 (by omega)] at heq3
              exact Except.noConfusion heq3
            next ts heq3 =>
              split
              next e heq4 =>
                rw [readU_eq_ok data (4 + id_len + 8) 4 (by omega)] at heq4
                exact Except.noConfusion heq4
              next np heq4 =>
                split
                next e heq5 =>
                  rw [readU_eq_ok data (4 + id_len + 12) 4 (by omega)] at heq5
                  exact Except.noConfusion heq5
                next sd heq5 => simp

/-- The IMU decoder never performs an out-of-slice memcpy. -/
theorem imu_deserializeE_no_oob (data : List Nat) :
    ImuData.deserializeE data ≠ .error .oob := by
  unfold ImuData.deserializeE
  split
  · simp
  next h1 =>
    split
    next e heq =>
      rw [readU_eq_ok data 0 4 (by omega)] at heq
      exact Except.noConfusion heq
    next id_len heq =>
      split
      · simp
      next h2 =>
        split
        next e heq2 =>
          rw [memRead_eq_ok data 4 id_len (by omega)] at heq2
          exact Except.noConfusion heq2
        next sid heq2 =>
          split
          · simp
          next h3 =>
            split
            next e heq3 =>
              rw [readU_eq_ok data (4 + id_len) 8 (by omega)] at heq3
              exact Except.noConfusion heq3
            next ts heq3 =>
              split
              next e heq4 =>
                rw [readU_eq_ok data (4 + id_len + 8) 4 (by omega)] at heq4
                exact Except.noConfusion heq4
              next ax heq4 =>
                split
                next e heq5 =>
                  rw [readU_eq_ok data (4 + id_len + 12) 4 (by omega)] at heq5
                  exact Except.noConfusion heq5
                next ay heq5 =>
                  split
                  next e heq6 =>
                    rw [readU_eq_ok data (4 + id_len + 16) 4 (by omega)] at heq6
                    exact Except.noConfusion heq6
                  next az heq6 =>
                    split
                    next e heq7 =>
                      rw [readU_eq_ok data (4 + id_len + 20) 4 (by omega)] at heq7
                      exact Except.noConfusion heq7
                    next gx heq7 =>
                      split
                      next e heq8 =>
                        rw [readU_eq_ok data (4 + id_len + 24) 4 (by omega)] at heq8
                        exact Except.noConfusion heq8
                      next gy heq8 =>
                        split
                        next e heq9 =>
                          rw [readU_eq_ok data (4 + id_len + 28) 4 (by omega)] at heq9
                          exact Except.noConfusion heq9
                        next gz heq9 => simp

/-- Round trip for the camera payload, for values representable in the C++
field types whose string fields are shorter than 2^32 bytes. -/
theorem camera_roundtrip (d : CameraFrameData)
    (hs : d.sensor_id_.length < 2 ^ 32) (he : d.encoding.length < 2 ^ 32)
    (ht : d.timestamp_ns_ < 2 ^ 64) (hf : d.frame_id < 2 ^ 32)
    (hw : d.width < 2 ^ 32) (hh : d.height < 2 ^ 32) :
    CameraFrameData.deserialize (d.serialize []) = some d := by
  have e32 : (256 : Nat) ^ 4 = 2 ^ 32 := by norm_num
  have e64 : (256 : Nat) ^ 8 = 2 ^ 64 := by norm_num
  have hlen : (d.serialize []).length = 28 + d.sensor_id_.length + d.encoding.length := by
    simp [CameraFrameData.serialize, leBytes_length]
    omega
  have r1 : readU (d.serialize []) 0 4 = .ok d.sensor_id_.length := by
    rw [readU_at (d.serialize []) []
      (d.sensor_id_ ++ (leBytes 8 d.timestamp_ns_ ++ (leBytes 4 d.frame_id
        ++ (leBytes 4 d.width ++ (leBytes 4 d.height
        ++ (leBytes 4 d.encoding.length ++ d.encoding))))))
      4 d.sensor_id_.length 0
      (by simp [CameraFrameData.serialize]) rfl]
    rw [e32, Nat.mod_eq_of_lt hs]
  have r2 : memRead (d.serialize []) 4 d.sensor_id_.length = .ok d.sensor_id_ :=
    memRead_at _ (leBytes 4 d.sensor_id_.length) d.sensor_id_
      (leBytes 8 d.timestamp_ns_ ++ (leBytes 4 d.frame_id ++ (leBytes 4 d.width
        ++ (leBytes 4 d.height ++ (leBytes 4 d.encoding.length ++ d.encoding))))) 4 _
      (by simp [CameraFrameData.serialize]) (by simp [leBytes_length]; try omega) rfl
  have r3 : readU (d.serialize []) (4 + d.sensor_id_.length) 8 = .ok d.timestamp_ns_ := by
    rw [readU_at (d.serialize []) (leBytes 4 d.sensor_id_.length ++ d.sensor_id_)
      (leBytes 4 d.frame_id ++ (leBytes 4 d.width ++ (leBytes 4 d.height
        ++ (leBytes 4 d.encoding.length ++ d.encoding))))
      8 d.timestamp_ns_ _
      (by simp [CameraFrameData.serialize]) (by simp [leBytes_length]; try omega)]
    rw [e64, Nat.mod_eq_of_lt ht]
  have r4 : readU (d.serialize []) (4 + d.sensor_id_.length + 8) 4 = .ok d.frame_id := by
    rw [readU_at (d.serialize [])
      (leBytes 4 d.sensor_id_.length ++ d.sensor_id_ ++ leBytes 8 d.timestamp_ns_)
      (leBytes 4 d.width ++ (leBytes 4 d.height
        ++ (leBytes 4 d.encoding.length ++ d.encoding)))
      4 d.frame_id _
      (by simp [CameraFrameData.serialize]) (by simp [leBytes_length]; try omega)]
    rw [e32, Nat.mod_eq_of_lt hf]
  have r5 : readU (d.serialize []) (4 + d.sensor_id_.length + 12) 4 = .ok d.width := by
    rw [readU_at (d.serialize [])
      (leBytes 4 d.sensor_id_.length ++ d.sensor_id_ ++ leBytes 8 d.timestamp_ns_
        ++ leBytes 4 d.frame_id)
      (leBytes 4 d.height ++ (leBytes 4 d.encoding.length ++ d.encoding))
      4 d.width _
      (by simp [CameraFrameData.serialize]) (by simp [leBytes_length]; try omega)]
    rw [e32, Nat.mod_eq_of_lt hw]
  have r6 : readU (d.serialize []) (4 + d.sensor_id_.length + 16) 4 = .ok d.height := by
    rw [readU_at (d.serialize [])
      (leBytes 4 d.sensor_id_.length ++ d.sensor_id_ ++ leBytes 8 d.timestamp_ns_
        ++ leBytes 4 d.frame_id ++ leBytes 4 d.width)
      (leBytes 4 d.encoding.length ++ d.encoding)
      4 d.height _
      (by simp [CameraFrameData.serialize]) (by simp [leBytes_length]; try omega)]
    rw [e32, Nat.mod_eq_of_lt hh]
  have r7 : readU (d.serialize []) (4 + d.sensor_id_.length + 20) 4
      = .ok d.encoding.length := by
    rw [readU_at (d.serialize [])
      (leBytes 4 d.sensor_id_.length ++ d.sensor_id_ ++ leBytes 8 d.timestamp_ns_
        ++ leBytes 4 d.frame_id ++ leBytes 4 d.width ++ leBytes 4 d.height)
      d.encoding
      4 d.encoding.length _
      (by simp [CameraFrameData.serialize]) (by simp [leBytes_length]; try omega)]
    rw [e32, Nat.mod_eq_of_lt he]
  have r8 : memRead (d.serialize []) (4 + d.sensor_id_.length + 24) d.encoding.length
      = .ok d.encoding :=
    memRead_at _
      (leBytes 4 d.sensor_id_.length ++ d.sensor_id_ ++ leBytes 8 d.timestamp_ns_
        ++ leBytes 4 d.frame_id ++ leBytes 4 d.width ++ leBytes 4 d.height
        ++ leBytes 4 d.encoding.length) d.encoding [] _ _
      (by simp [CameraFrameData.serialize]) (by simp [leBytes_length]; try omega) rfl
  have c1 : ¬ (d.serialize []).length < 4 := by omega
  have c2 : ¬ (d.serialize []).length < 4 + d.sensor_id_.length := by omega
  have c3 : ¬ (d.serialize []).length < (4 + d.sensor_id_.length) + (8 + 4 + 4 + 4) := by
    omega
  have c4 : ¬ (d.serialize []).length < (4 + d.sensor_id_.length + 20) + 4 := by omega
  have c5 : ¬ (d.serialize []).length
      < (4 + d.sensor_id_.length + 24) + d.encoding.length := by omega
  simp [CameraFrameData.deserialize, CameraFrameData.deserializeE,
    c1, c2, c3, c4, c5, r1, r2, r3, r4, r5, r6, r7, r8, Except.toOption]

/-- Round trip for the lidar payload, for values representable in the C++
field types whose string field is shorter than 2^32 bytes. -/
theorem lidar_roundtrip (d : LidarScanData)
    (hs : d.sensor_id_.length < 2 ^ 32) (ht : d.timestamp_ns_ < 2 ^ 64)
    (hn : d.num_points < 2 ^ 32) (hd : d.scan_duration_ms < 2 ^ 32) :
    LidarScanData.deserialize (d.serialize []) = some d := by
  have e32 : (256 : Nat) ^ 4 = 2 ^ 32 := by norm_num
  have e64 : (256 : Nat) ^ 8 = 2 ^ 64 := by norm_num
  have hlen : (d.serialize []).length = 20 + d.sensor_id_.length := by
    simp [LidarScanData.serialize, leBytes_length]
    omega
  have r1 : readU (d.serialize []) 0 4 = .ok d.sensor_id_.length := by
    rw [readU_at (d.serialize []) []
      (d.sensor_id_ ++ (leBytes 8 d.timestamp_ns_ ++ (leBytes 4 d.num_points
        ++ leBytes 4 d.scan_duration_ms)))
      4 d.sensor_id_.length 0
      (by simp [LidarScanData.serialize]) rfl]
    rw [e32, Nat.mod_eq_of_lt hs]
  have r2 : memRead (d.serialize []) 4 d.sensor_id_.length = .ok d.sensor_id_ :=
    memRead_at _ (leBytes 4 d.sensor_id_.length) d.sensor_id_
      (leBytes 8 d.timestamp_ns_ ++ (leBytes 4 d.num_points
        ++ leBytes 4 d.scan_duration_ms)) 4 _
      (by simp [LidarScanData.serialize]) (by simp [leBytes_length]; try omega) rfl
  have r3 : readU (d.serialize []) (4 + d.sensor_id_.length) 8 = .ok d.timestamp_ns_ := by
    rw [readU_at (d.serialize []) (leBytes 4 d.sensor_id_.length ++ d.sensor_id_)
      (leBytes 4 d.num_points ++ leBytes 4 d.scan_duration_ms)
      8 d.timestamp_ns_ _
      (by simp [LidarScanData.serialize]) (by simp [leBytes_length]; try omega)]
    rw [e64, Nat.mod_eq_of_lt ht]
  have r4 : readU (d.serialize []) (4 + d.sensor_id_.length + 8) 4 = .ok d.num_points := by
    rw [readU_at (d.serialize [])
      (leBytes 4 d.sensor_id_.length ++ d.sensor_id_ ++ leBytes 8 d.timestamp_ns_)
      (leBytes 4 d.scan_duration_ms)
      4 d.num_points _
      (by simp [LidarScanData.serialize]) (by simp [leBytes_length]; try omega)]
    rw [e32, Nat.mod_eq_of_lt hn]
  have r5 : readU (d.serialize []) (4 + d.sensor_id_.length + 12) 4
      = .ok d.scan_duration_ms := by
    rw [readU_at (d.serialize [])
      (leBytes 4 d.sensor_id_.length ++ d.sensor_id_ ++ leBytes 8 d.timestamp_ns_
        ++ leBytes 4 d.num_points)
      []
      4 d.scan_duration_ms _
      (by simp [LidarScanData.serialize]) (by simp [leBytes_length]; try omega)]
    rw [e32, Nat.mod_eq_of_lt hd]
  have c1 : ¬ (d.serialize []).length < 4 := by omega
  have c2 : ¬ (d.serialize []).length < 4 + d.sensor_id_.length := by omega
  have c3 : ¬ (d.serialize []).length < (4 + d.sensor_id_.length) + (8 + 4 + 4) := by omega
  simp [LidarScanData.deserialize, LidarScanData.deserializeE,
    c1, c2, c3, r1, r2, r3, r4, r5, Except.toOption]

/-- Round trip for the IMU payload, for values representable in the C++
field types whose string field is shorter than 2^32 bytes. -/
theorem imu_roundtrip (d : ImuData)
    (hs : d.sensor_id_.length < 2 ^ 32) (ht : d.timestamp_ns_ < 2 ^ 64)
    (hax : d.accel_x < 2 ^ 32) (hay : d.accel_y < 2 ^ 32) (haz : d.accel_z < 2 ^ 32)
    (hgx : d.gyro_x < 2 ^ 32) (hgy : d.gyro_y < 2 ^ 32) (hgz : d.gyro_z < 2 ^ 32) :
    ImuData.deserialize (d.serialize []) = some d := by
  have e32 : (256 : Nat) ^ 4 = 2 ^ 32 := by norm_num
  have e64 : (256 : Nat) ^ 8 = 2 ^ 64 := by norm_num
  have hlen : (d.serialize []).length = 36 + d.sensor_id_.length := by
    simp [ImuData.serialize, leBytes_length]
    omega
  have r1 : readU (d.serialize []) 0 4 = .ok d.sensor_id_.length := by
    rw [readU_at (d.serialize []) []
      (d.sensor_id_ ++ (leBytes 8 d.timestamp_ns_ ++ (leBytes 4 d.accel_x
        ++ (leBytes 4 d.accel_y ++ (leBytes 4 d.accel_z ++ (leBytes 4 d.gyro_x
        ++ (leBytes 4 d.gyro_y ++ leBytes 4 d.gyro_z)))))))
      4 d.sensor_id_.length 0
      (by simp [ImuData.serialize]) rfl]
    rw [e32, Nat.mod_eq_of_lt hs]
  have r2 : memRead (d.serialize []) 4 d.sensor_id_.length = .ok d.sensor_id_ :=
    memRead_at _ (leBytes 4 d.sensor_id_.length) d.sensor_id_
      (leBytes 8 d.timestamp_ns_ ++ (leBytes 4 d.accel_x ++ (leBytes 4 d.accel_y
        ++ (leBytes 4 d.accel_z ++ (leBytes 4 d.gyro_x ++ (leBytes 4 d.gyro_y
        ++ leBytes 4 d.gyro_z)))))) 4 _
      (by simp [ImuData.serialize]) (by simp [leBytes_length]; try omega) rfl
  have r3 : readU (d.serialize []) (4 + d.sensor_id_.length) 8 = .ok d.timestamp_ns_ := by
    rw [readU_at (d.serialize []) (leBytes 4 d.sensor_id_.length ++ d.sensor_id_)
      (leBytes 4 d.accel_x ++ (leBytes 4 d.accel_y ++ (leBytes 4 d.accel_z
        ++ (leBytes 4 d.gyro_x ++ (leBytes 4 d.gyro_y ++ leBytes 4 d.gyro_z)))))
      8 d.timestamp_ns_ _
      (by simp [ImuData.serialize]) (by simp [leBytes_length]; try omega)]
    rw [e64, Nat.mod_eq_of_lt ht]
  have r4 : readU (d.serialize []) (4 + d.sensor_id_.length + 8) 4 = .ok d.accel_x := by
    rw [readU_at (d.serialize [])
      (leBytes 4 d.sensor_id_.length ++ d.sensor_id_ ++ leBytes 8 d.timestamp_ns_)
      (leBytes 4 d.accel_y ++ (leBytes 4 d.accel_z ++ (leBytes 4 d.gyro_x
        ++ (leBytes 4 d.gyro_y ++ leBytes 4 d.gyro_z))))
      4 d.accel_x _
      (by simp [ImuData.serialize]) (by simp [leBytes_length]; try omega)]
    rw [e32, Nat.mod_eq_of_lt hax]
  have r5 : readU (d.serialize []) (4 + d.sensor_id_.length + 12) 4 = .ok d.accel_y := by
    rw [readU_at (d.serialize [])
      (leBytes 4 d.sensor_id_.length ++ d.sensor_id_ ++ leBytes 8 d.timestamp_ns_
        ++ leBytes 4 d.accel_x)
      (leBytes 4 d.accel_z ++ (leBytes 4 d.gyro_x
        ++ (leBytes 4 d.gyro_y ++ leBytes 4 d.gyro_z)))
      4 d.accel_y _
      (by simp [ImuData.serialize]) (by simp [leBytes_length]; try omega)]
    rw [e32, Nat.mod_eq_of_lt hay]
  have r6 : readU (d.serialize []) (4 + d.sensor_id_.length + 16) 4 = .ok d.accel_z := by
    rw [readU_at (d.serialize [])
      (leBytes 4 d.sensor_id_.length ++ d.sensor_id_ ++ leBytes 8 d.timestamp_ns_
        ++ leBytes 4 d.accel_x ++ leBytes 4 d.accel_y)
      (leBytes 4 d.gyro_x ++ (leBytes 4 d.gyro_y ++ leBytes 4 d.gyro_z))
      4 d.accel_z _
      (by simp [ImuData.serialize]) (by simp [leBytes_length]; try omega)]
    rw [e32, Nat.mod_eq_of_lt haz]
  have r7 : readU (d.serialize []) (4 + d.sensor_id_.length + 20) 4 = .ok d.gyro_x := by
    rw [readU_at (d.serialize [])
      (leBytes 4 d.sensor_id_.length ++ d.sensor_id_ ++ leBytes 8 d.timestamp_ns_
        ++ leBytes 4 d.accel_x ++ leBytes 4 d.accel_y ++ leBytes 4 d.accel_z)
      (leBytes 4 d.gyro_y ++ leBytes 4 d.gyro_z)
      4 d.gyro_x _
      (by simp [ImuData.serialize]) (by simp [leBytes_length]; try omega)]
    rw [e32, Nat.mod_eq_of_lt hgx]
  have r8 : readU (d.serialize []) (4 + d.sensor_id_.length + 24) 4 = .ok d.gyro_y := by
    rw [readU_at (d.serialize [])
      (leBytes 4 d.sensor_id_.length ++ d.sensor_id_ ++ leBytes 8 d.timestamp_ns_
        ++ leBytes 4 d.accel_x ++ leBytes 4 d.accel_y ++ leBytes 4 d.accel_z
        ++ leBytes 4 d.gyro_x)
      (leBytes 4 d.gyro_z)
      4 d.gyro_y _
      (by simp [ImuData.serialize]) (by simp [leBytes_length]; try omega)]
    rw [e32, Nat.mod_eq_of_lt hgy]
  have r9 : readU (d.serialize []) (4 + d.sensor_id_.length + 28) 4 = .ok d.gyro_z := by
    rw [readU_at (d.serialize [])
      (leBytes 4 d.sensor_id_.length ++ d.sensor_id_ ++ leBytes 8 d.timestamp_ns_
        ++ leBytes 4 d.accel_x ++ leBytes 4 d.accel_y ++ leBytes 4 d.accel_z
        ++ leBytes 4 d.gyro_x ++ leBytes 4 d.gyro_y)
      []
      4 d.gyro_z _
      (by simp [ImuData.serialize]) (by simp [leBytes_length]; try omega)]
    rw [e32, Nat.mod_eq_of_lt hgz]
  have c1 : ¬ (d.serialize []).length < 4 := by omega
  have c2 : ¬ (d.serialize []).length < 4 + d.sensor_id_.length := by omega
  have c3 : ¬ (d.serialize []).length
      < (4 + d.sensor_id_.length) + (8 + 4 + 4 + 4 + 4 + 4 + 4) := by omega
  simp [ImuData.deserialize, ImuData.deserializeE,
    c1, c2, c3, r1, r2, r3, r4, r5, r6, r7, r8, r9, Except.toOption]

theorem leBytes_zero (w : Nat) : leBytes w 0 = List.replicate w 0 := by
  induction w with
  | zero => rfl
  | succ k ih => simp [leBytes, ih, List.replicate]

theorem leVal_replicate_zero (w : Nat) : leVal (List.replicate w 0) = 0 := by
  induction w with
  | zero => rfl
  | succ k ih => simp [List.replicate, leVal, ih]

theorem memRead_replicate (N off len : Nat) (h : off + len ≤ N) :
    memRead (List.replicate N (0 : Nat)) off len = .ok (List.replicate len 0) := by
  unfold memRead
  rw [if_pos (by simp; omega)]
  rw [List.drop_replicate, List.take_replicate, Nat.min_eq_left (by omega)]

theorem readU_replicate (N off w : Nat) (h : off + w ≤ N) :
    readU (List.replicate N (0 : Nat)) off w = .ok 0 := by
  unfold readU
  rw [memRead_replicate N off w h]
  simp [leVal_replicate_zero]

/-! ## Claim theorems -/

/-- C1 (as stated, refuted): the round trip is NOT the identity for every
value of the payload types.  A lidar value whose sensor id is 2^32 bytes long
serializes its length prefix as `(uint32_t)size = 0`, so decoding the encoded
bytes yields the empty sensor id instead of the original. -/
theorem claim_C1_counterexample :
    LidarScanData.deserialize
        (LidarScanData.serialize ⟨List.replicate 4294967296 0, 0, 0, 0⟩ []) ≠
      some ⟨List.replicate 4294967296 0, 0, 0, 0⟩ := by
  have h4 : leBytes 4 4294967296 = List.replicate 4 0 := by decide
  have hser : LidarScanData.serialize ⟨List.replicate 4294967296 0, 0, 0, 0⟩ []
      = List.replicate 4294967316 0 := by
    show [] ++ leBytes 4 (List.replicate 4294967296 (0 : Nat)).length
        ++ List.replicate 4294967296 0 ++ leBytes 8 0 ++ leBytes 4 0 ++ leBytes 4 0
        = List.replicate 4294967316 0
    rw [List.length_replicate, h4]
    simp only [leBytes_zero, List.nil_append]
    rw [← List.replicate_add, ← List.replicate_add, ← List.replicate_add,
      ← List.replicate_add]
  have hN : (List.replicate 4294967316 (0 : Nat)).length = 4294967316 :=
    List.length_replicate ..
  have r1 : readU (List.replicate 4294967316 (0 : Nat)) 0 4 = .ok 0 :=
    readU_replicate _ _ _ (by norm_num)
  have r2 : memRead (List.replicate 4294967316 (0 : Nat)) 4 0 = .ok [] := by
    rw [memRead_replicate _ _ _ (by norm_num)]
    rfl
  have r3 : readU (List.replicate 4294967316 (0 : Nat)) (4 + 0) 8 = .ok 0 :=
    readU_replicate _ _ _ (by norm_num)
  have r4 : readU (List.replicate 4294967316 (0 : Nat)) (4 + 0 + 8) 4 = .ok 0 :=
    readU_replicate _ _ _ (by norm_num)
  have r5 : readU (List.replicate 4294967316 (0 : Nat)) (4 + 0 + 12) 4 = .ok 0 :=
    readU_replicate _ _ _ (by norm_num)
  rw [hser]
  unfold LidarScanData.deserialize LidarScanData.deserializeE
  simp only [hN]
  rw [if_neg (by norm_num)]
  simp only [r1]
  rw [if_neg (by norm_num)]
  simp only [r2]
  rw [if_neg (by norm_num)]
  rw [r3, r4, r5]
  show (Except.ok (⟨[], 0, 0, 0⟩ : LidarScanData)).toOption ≠
    some ⟨List.replicate 4294967296 0, 0, 0, 0⟩
  simp only [Except.toOption, ne_eq, Option.some.injEq, LidarScanData.mk.injEq]
  intro hcontra
  have h1 := hcontra.1
  rw [eq_comm, List.replicate_eq_nil_iff] at h1
  norm_num at h1

/-- C1 (amended): for every payload value whose numeric fields fit their C++
types (u64 timestamp, u32 integer fields, f32 bit patterns) and whose string
fields are shorter than 2^32 bytes, decoding the encoded bytes reproduces the
value exactly, field for field and bit for bit — including empty strings,
multi-kilobyte strings, and arbitrary f32 bit patterns (infinities, NaNs,
extremes), which the codec only ever moves by memcpy. -/
theorem claim_C1_payload_roundtrip :
    (∀ d : CameraFrameData, d.sensor_id_.length < 2 ^ 32 → d.encoding.length < 2 ^ 32 →
      d.timestamp_ns_ < 2 ^ 64 → d.frame_id < 2 ^ 32 → d.width < 2 ^ 32 →
      d.height < 2 ^ 32 → CameraFrameData.deserialize (d.serialize []) = some d) ∧
    (∀ d : LidarScanData, d.sensor_id_.length < 2 ^ 32 → d.timestamp_ns_ < 2 ^ 64 →
      d.num_points < 2 ^ 32 → d.scan_duration_ms < 2 ^ 32 →
      LidarScanData.deserialize (d.serialize []) = some d) ∧
    (∀ d : ImuData, d.sensor_id_.length < 2 ^ 32 → d.timestamp_ns_ < 2 ^ 64 →
      d.accel_x < 2 ^ 32 → d.accel_y < 2 ^ 32 → d.accel_z < 2 ^ 32 →
      d.gyro_x < 2 ^ 32 → d.gyro_y < 2 ^ 32 → d.gyro_z < 2 ^ 32 →
      ImuData.deserialize (d.serialize []) = some d) :=
  ⟨fun d h1 h2 h3 h4 h5 h6 => camera_roundtrip d h1 h2 h3 h4 h5 h6,
   fun d h1 h2 h3 h4 => lidar_roundtrip d h1 h2 h3 h4,
   fun d h1 h2 h3 h4 h5 h6 h7 h8 => imu_roundtrip d h1 h2 h3 h4 h5 h6 h7 h8⟩

/-- Witness for C1 at concrete values: a camera frame with maximal u64/u32
fields, a lidar scan whose f32 bit pattern is a quiet NaN (0x7FC00000), and an
IMU sample mixing +inf (0x7F800000), -inf (0xFF800000) and extreme finite
(0x7F7FFFFF) bit patterns with an empty sensor id. -/
theorem claim_C1_payload_roundtrip_witness :
    CameraFrameData.deserialize
        (CameraFrameData.serialize
          ⟨[99, 97, 109], 18446744073709551615, 4294967295, 1920, 1080, [82, 71, 66, 56]⟩
          [])
      = some ⟨[99, 97, 109], 18446744073709551615, 4294967295, 1920, 1080,
          [82, 71, 66, 56]⟩ ∧
    LidarScanData.deserialize
        (LidarScanData.serialize ⟨[108, 49], 123456789, 65536, 2143289344⟩ [])
      = some ⟨[108, 49], 123456789, 65536, 2143289344⟩ ∧
    ImuData.deserialize
        (ImuData.serialize
          ⟨[], 0, 2139095040, 4286578688, 2139095039, 0, 1, 4294967295⟩ [])
      = some ⟨[], 0, 2139095040, 4286578688, 2139095039, 0, 1, 4294967295⟩ :=
  ⟨claim_C1_payload_roundtrip.1 _ (by norm_num) (by norm_num) (by norm_num)
      (by norm_num) (by norm_num) (by norm_num),
   claim_C1_payload_roundtrip.2.1 _ (by norm_num) (by norm_num) (by norm_num)
      (by norm_num),
   claim_C1_payload_roundtrip.2.2 _ (by norm_num) (by norm_num) (by norm_num)
      (by norm_num) (by norm_num) (by norm_num) (by norm_num) (by norm_num)⟩

/-- C2: on every input buffer — in particular under arbitrary corrupt length
prefixes — none of the three payload decoders ever reads outside the supplied
slice: every memcpy is covered by the bounds check preceding it, and the only
failure the decoders can report is the checked malformed result. -/
theorem claim_C2_no_out_of_bounds_reads (data : List Nat) :
    CameraFrameData.deserializeE data ≠ .error .oob ∧
    LidarScanData.deserializeE data ≠ .error .oob ∧
    ImuData.deserializeE data ≠ .error .oob :=
  ⟨camera_deserializeE_no_oob data, lidar_deserializeE_no_oob data,
   imu_deserializeE_no_oob data⟩

/-- C3: envelope decode fails on every buffer shorter than the 16-byte header,
and on a buffer of exactly 16 bytes (header with no payload bytes) it fails
for all three payload types, each of which requires at least the 4-byte
string length prefix. -/
theorem claim_C3_envelope_short_buffers (data : List Nat) :
    (data.length < 16 →
      Message.deserialize CameraFrameData.deserialize data = none ∧
      Message.deserialize LidarScanData.deserialize data = none ∧
      Message.deserialize ImuData.deserialize data = none) ∧
    (data.length = 16 →
      Message.deserialize CameraFrameData.deserialize data = none ∧
      Message.deserialize LidarScanData.deserialize data = none ∧
      Message.deserialize ImuData.deserialize data = none) := by
  constructor
  · intro hshort
    refine ⟨?_, ?_, ?_⟩ <;>
      simp [Message.deserialize, MessageHeader.serialized_size, hshort]
  · intro hexact
    have hdrop : data.drop 16 = [] := by
      apply List.eq_nil_of_length_eq_zero
      simp [hexact]
    refine ⟨?_, ?_, ?_⟩ <;>
    · unfold Message.deserialize
      rw [if_neg (by simp [MessageHeader.serialized_size, hexact])]
      cases MessageHeader.deserialize (data.take MessageHeader.serialized_size) with
      | none => rfl
      | some h =>
        simp [MessageHeader.serialized_size, hdrop, CameraFrameData.deserialize,
          CameraFrameData.deserializeE, LidarScanData.deserialize,
          LidarScanData.deserializeE, ImuData.deserialize, ImuData.deserializeE,
          Except.toOption]

/-- Witness for C3 at a 15-byte and a 16-byte all-zero buffer. -/
theorem claim_C3_envelope_short_buffers_witness :
    Message.deserialize CameraFrameData.deserialize (List.replicate 15 0) = none ∧
    Message.deserialize LidarScanData.deserialize (List.replicate 16 0) = none :=
  ⟨((claim_C3_envelope_short_buffers (List.replicate 15 0)).1 (by simp)).1,
   ((claim_C3_envelope_short_buffers (List.replicate 16 0)).2 (by simp)).2.1⟩

/-! ## Transport loop lemmas -/

/-- The drain loop consumes every remaining frame of the current message. -/
theorem drainLoop_eq_nil (l : List (List Nat)) : drainLoop l = [] := by
  induction l with
  | nil => rfl
  | cons f rest ih => simp [drainLoop, ih]

/-- With a negative configured timeout the publish loop never takes the
timeout return: the elapsed-time check is skipped on every iteration. -/
theorem publishLoop_no_timeout (t : Int) (ht : t < 0) (sent polls : Nat)
    (tr : List PubIter) : (publishLoop t sent polls tr).result ≠ .timeout := by
  induction tr generalizing polls with
  | nil => simp [publishLoop]
  | cons it rest ih =>
    simp only [publishLoop]
    split
    · simp
    · split
      next hcond => exact absurd ht hcond.1
      · split
        · simp
        · split
          · split <;> simp
          · exact ih (polls + 1)

/-- With a negative configured timeout the receive loop never takes the
timeout return. -/
theorem receiveLoop_no_timeout (t : Int) (ht : t < 0) (recvd polls : Nat)
    (tr : List SubIter) : (receiveLoop t recvd polls tr).result ≠ .timeout := by
  induction tr generalizing polls with
  | nil => simp [receiveLoop]
  | cons it rest ih =>
    simp only [receiveLoop]
    split
    · simp
    · split
      next hcond => exact absurd ht hcond.1
      · split
        · simp
        · split
          · split
            · simp
            · split <;> simp
          · exact ih (polls + 1)

/-- The `messages_sent_` counter after the publish loop: incremented by one
exactly when the loop returns success, unchanged on every other return. -/
theorem publishLoop_sent (t : Int) (sent polls : Nat) (tr : List PubIter) :
    (publishLoop t sent polls tr).messages_sent =
      if (publishLoop t sent polls tr).result = .success then sent + 1 else sent := by
  induction tr generalizing polls with
  | nil => simp [publishLoop]
  | cons it rest ih =>
    simp only [publishLoop]
    split
    · simp
    · split
      · simp
      · split
        · simp
        · split
          · split <;> simp
          · exact ih (polls + 1)

/-- The `messages_received_` counter after the receive loop: incremented by
one exactly when the loop returns a received payload. -/
theorem receiveLoop_recvd (t : Int) (recvd polls : Nat) (tr : List SubIter) :
    (receiveLoop t recvd polls tr).messages_received =
      if ((receiveLoop t recvd polls tr).result).isSuccess then recvd + 1
      else recvd := by
  induction tr generalizing polls with
  | nil => simp [receiveLoop, SubResult.isSuccess]
  | cons it rest ih =>
    simp only [receiveLoop]
    split
    · simp [SubResult.isSuccess]
    · split
      · simp [SubResult.isSuccess]
      · split
        · simp [SubResult.isSuccess]
        · split
          · split
            · simp [SubResult.isSuccess]
            · split <;> simp [SubResult.isSuccess]
          · exact ih (polls + 1)

/-! ## Claim theorems for the transport layer -/

/-- C4: in the readiness branch, `receive_raw` discards the first (topic)
frame and returns the second (data) frame, draining any third or later frame
instead of returning it; a single-frame message yields the failure indicator
with nothing returned.  In both cases the whole multipart message is consumed
from the socket. -/
theorem claim_C4_two_frame_protocol (timeout_ms : Int) (recvd : Nat)
    (it : SubIter) (rest : List SubIter)
    (hstop : it.stop_requested = false)
    (htime : timeout_ms < 0 ∨ (it.elapsed_ms : Int) < timeout_ms)
    (hrc : it.poll_rc > 0) (hin : it.pollin = true)
    (hthrow : it.recv_throws = false) :
    (∀ topicF dataF extra, it.frames = topicF :: dataF :: extra →
      ZmqSubscriber.receive_raw true timeout_ms recvd (it :: rest)
        = ⟨.success dataF, recvd + 1, 1, []⟩) ∧
    (∀ topicF, it.frames = [topicF] →
      ZmqSubscriber.receive_raw true timeout_ms recvd (it :: rest)
        = ⟨.recvFail, recvd, 1, []⟩) := by
  have hto : ¬ (¬ timeout_ms < 0 ∧ (it.elapsed_ms : Int) ≥ timeout_ms) := by
    rcases htime with h | h
    · intro hc
      exact hc.1 h
    · intro hc
      omega
  have hlt : ¬ it.poll_rc < 0 := by omega
  constructor
  · intro topicF dataF extra hf
    simp [ZmqSubscriber.receive_raw, receiveLoop, hstop, hto, hlt, hrc, hin,
      hthrow, hf, handleReadable, drainLoop_eq_nil]
    omega
  · intro topicF hf
    simp [ZmqSubscriber.receive_raw, receiveLoop, hstop, hto, hlt, hrc, hin,
      hthrow, hf, handleReadable]
    omega

/-- Witness for C4 at a concrete ready iteration carrying a three-frame and a
one-frame message. -/
theorem claim_C4_two_frame_protocol_witness :
    ZmqSubscriber.receive_raw true 1000 7
        [⟨false, 5, 1, true, [[116], [42, 43], [99]], false⟩]
      = ⟨.success [42, 43], 8, 1, []⟩ ∧
    ZmqSubscriber.receive_raw true 1000 7 [⟨false, 5, 1, true, [[116]], false⟩]
      = ⟨.recvFail, 7, 1, []⟩ :=
  ⟨(claim_C4_two_frame_protocol 1000 7 ⟨false, 5, 1, true, [[116], [42, 43], [99]], false⟩
      [] rfl (by norm_num) (by norm_num) rfl rfl).1 [116] [42, 43] [[99]] rfl,
   (claim_C4_two_frame_protocol 1000 7 ⟨false, 5, 1, true, [[116]], false⟩
      [] rfl (by norm_num) (by norm_num) rfl rfl).2 [116] rfl⟩

/-- C5: a publisher that is not bound and a subscriber that is not connected
fail immediately: the poll loop is never entered, no poll is performed and the
counters are untouched, whatever the configured timeout and whatever the
environment would have answered. -/
theorem claim_C5_fail_fast_when_unbound (timeout_ms : Int) (sent recvd : Nat)
    (ptrace : List PubIter) (strace : List SubIter) :
    ZmqPublisher.publish_raw false timeout_ms sent ptrace
      = ⟨.notBound, sent, 0⟩ ∧
    ZmqSubscriber.receive_raw false timeout_ms recvd strace
      = ⟨.notConnected, recvd, 0, []⟩ := by
  constructor
  · simp [ZmqPublisher.publish_raw]
  · simp [ZmqSubscriber.receive_raw]

/-- C6: with a negative configured timeout, neither `publish_raw` nor
`receive_raw` can return the timeout failure — the loops perform no
elapsed-time check in that case, so only success, cancellation or a transport
error can end the call. -/
theorem claim_C6_negative_timeout_waits (timeout_ms : Int)
    (hneg : timeout_ms < 0) (bound connected : Bool) (sent recvd : Nat)
    (ptrace : List PubIter) (strace : List SubIter) :
    (ZmqPublisher.publish_raw bound timeout_ms sent ptrace).result ≠ .timeout ∧
    (ZmqSubscriber.receive_raw connected timeout_ms recvd strace).result
      ≠ .timeout := by
  constructor
  · unfold ZmqPublisher.publish_raw
    split
    · simp
    · exact publishLoop_no_timeout timeout_ms hneg sent 0 ptrace
  · unfold ZmqSubscriber.receive_raw
    split
    · simp
    · exact receiveLoop_no_timeout timeout_ms hneg recvd 0 strace

/-- Witness for C6 at timeout -1 with a trace that would otherwise look like
an expired deadline (large elapsed time, idle poll). -/
theorem claim_C6_negative_timeout_waits_witness :
    (-1 : Int) < 0 ∧
    (ZmqPublisher.publish_raw true (-1) 0
        [⟨false, 999999, 0, false, false⟩]).result ≠ .timeout ∧
    (ZmqSubscriber.receive_raw true (-1) 0
        [⟨false, 999999, 0, false, [], false⟩]).result ≠ .timeout :=
  ⟨by norm_num,
   (claim_C6_negative_timeout_waits (-1) (by norm_num) true true 0 0
      [⟨false, 999999, 0, false, false⟩] [⟨false, 999999, 0, false, [], false⟩]).1,
   (claim_C6_negative_timeout_waits (-1) (by norm_num) true true 0 0
      [⟨false, 999999, 0, false, false⟩] [⟨false, 999999, 0, false, [], false⟩]).2⟩

/-- C7: the publish counter is incremented by exactly one if and only if
`publish_raw` returns success and is unchanged on every failure return (hence
monotonically non-decreasing); symmetrically, the receive counter is
incremented exactly on each successful `receive_raw` return. -/
theorem claim_C7_counters (bound connected : Bool) (pt rt : Int)
    (sent recvd : Nat) (ptrace : List PubIter) (strace : List SubIter) :
    ((ZmqPublisher.publish_raw bound pt sent ptrace).messages_sent =
      if (ZmqPublisher.publish_raw bound pt sent ptrace).result = .success
      then sent + 1 else sent) ∧
    sent ≤ (ZmqPublisher.publish_raw bound pt sent ptrace).messages_sent ∧
    ((ZmqSubscriber.receive_raw connected rt recvd strace).messages_received =
      if ((ZmqSubscriber.receive_raw connected rt recvd strace).result).isSuccess
      then recvd + 1 else recvd) ∧
    recvd ≤ (ZmqSubscriber.receive_raw connected rt recvd strace).messages_received := by
  have hp : (ZmqPublisher.publish_raw bound pt sent ptrace).messages_sent =
      if (ZmqPublisher.publish_raw bound pt sent ptrace).result = .success
      then sent + 1 else sent := by
    unfold ZmqPublisher.publish_raw
    split
    · simp
    · exact publishLoop_sent pt sent 0 ptrace
  have hs : (ZmqSubscriber.receive_raw connected rt recvd strace).messages_received =
      if ((ZmqSubscriber.receive_raw connected rt recvd strace).result).isSuccess
      then recvd + 1 else recvd := by
    unfold ZmqSubscriber.receive_raw
    split
    · simp [SubResult.isSuccess]
    · exact receiveLoop_recvd rt recvd 0 strace
  refine ⟨hp, ?_, hs, ?_⟩
  · rw [hp]
    split <;> omega
  · rw [hs]
    split <;> omega

/-- C10: with a configured timeout of exactly zero milliseconds, a bound
publisher and a connected subscriber that are not cancelled return the
timeout failure on the very first loop iteration, before any poll (the poll
count of the returned outcome is 0), leaving the counters untouched — the
elapsed-time check already holds at zero elapsed time. -/
theorem claim_C10_zero_timeout_immediate (sent recvd : Nat)
    (pit : PubIter) (ptrace : List PubIter) (sit : SubIter) (strace : List SubIter)
    (hps : pit.stop_requested = false) (hss : sit.stop_requested = false) :
    ZmqPublisher.publish_raw true 0 sent (pit :: ptrace) = ⟨.timeout, sent, 0⟩ ∧
    ZmqSubscriber.receive_raw true 0 recvd (sit :: strace)
      = ⟨.timeout, recvd, 0, []⟩ := by
  have hp : ¬ (0 : Int) < 0 ∧ (pit.elapsed_ms : Int) ≥ 0 :=
    ⟨by norm_num, Int.natCast_nonneg _⟩
  have hq : ¬ (0 : Int) < 0 ∧ (sit.elapsed_ms : Int) ≥ 0 :=
    ⟨by norm_num, Int.natCast_nonneg _⟩
  constructor
  · simp [ZmqPublisher.publish_raw, publishLoop, hps, hp]
  · simp [ZmqSubscriber.receive_raw, receiveLoop, hss, hq]

/-- Witness for C10 at a concrete non-cancelled first iteration. -/
theorem claim_C10_zero_timeout_immediate_witness :
    ZmqPublisher.publish_raw true 0 3 [⟨false, 0, 1, true, false⟩]
      = ⟨.timeout, 3, 0⟩ ∧
    ZmqSubscriber.receive_raw true 0 9 [⟨false, 0, 1, true, [[1], [2]], false⟩]
      = ⟨.timeout, 9, 0, []⟩ :=
  claim_C10_zero_timeout_immediate 3 9 ⟨false, 0, 1, true, false⟩ []
    ⟨false, 0, 1, true, [[1], [2]], false⟩ [] rfl rfl

/-- C8: `unsubscribe` fails when not connected and fails when the topic is
not in the local subscription set; every failure return leaves the set
exactly unchanged; on success exactly the given topic is removed — it is no
longer a member and every other member is preserved. -/
theorem claim_C8_unsubscribe_set_discipline (connected : Bool)
    (subs : Finset String) (topic : String) (th : Bool) :
    (connected = false →
      ZmqSubscriber.unsubscribe connected subs topic th = (false, subs)) ∧
    (topic ∉ subs →
      ZmqSubscriber.unsubscribe connected subs topic th = (false, subs)) ∧
    ((ZmqSubscriber.unsubscribe connected subs topic th).1 = false →
      (ZmqSubscriber.unsubscribe connected subs topic th).2 = subs) ∧
    ((ZmqSubscriber.unsubscribe connected subs topic th).1 = true →
      topic ∈ subs ∧
      (ZmqSubscriber.unsubscribe connected subs topic th).2 = subs.erase topic ∧
      topic ∉ (ZmqSubscriber.unsubscribe connected subs topic th).2 ∧
      ∀ t, t ≠ topic →
        (t ∈ (ZmqSubscriber.unsubscribe connected subs topic th).2 ↔ t ∈ subs)) := by
  unfold ZmqSubscriber.unsubscribe
  split_ifs with h1 h2 h3 <;>
    refine ⟨?_, ?_, ?_, ?_⟩ <;>
    simp_all [Finset.mem_erase]

/-- Witness for C8: a disconnected call, a call on an absent topic, and a
successful removal, each at concrete sets. -/
theorem claim_C8_unsubscribe_set_discipline_witness :
    ZmqSubscriber.unsubscribe false {"camera"} "camera" false
      = (false, {"camera"}) ∧
    ZmqSubscriber.unsubscribe true {"camera"} "lidar" false
      = (false, {"camera"}) ∧
    (ZmqSubscriber.unsubscribe true {"camera"} "camera" false).2
      = Finset.erase {"camera"} "camera" :=
  ⟨(claim_C8_unsubscribe_set_discipline false {"camera"} "camera" false).1 rfl,
   (claim_C8_unsubscribe_set_discipline true {"camera"} "lidar" false).2.1
      (by decide),
   ((claim_C8_unsubscribe_set_discipline true {"camera"} "camera" false).2.2.2
      (by decide)).2.1⟩

/-- C9 (as stated, refuted): calling `start()` while the loop is already
running is neither a no-op nor a failure: at a concrete state with one
running worker, `start()` replaces the stored handle with a freshly spawned
thread (the member returns void, so no failure can be reported). -/
theorem claim_C9_counterexample :
    PeriodicPublisher.is_running ⟨[⟨false, false⟩]⟩ (some 0) = true ∧
    (PeriodicPublisher.start ⟨[⟨false, false⟩]⟩ (some 0)).2 ≠ some 0 := by
  decide

/-- C9 (amended): `start()` on a running publisher silently installs a new
worker thread handle, but it does not strand or leak the prior worker: the
`std::jthread` move assignment first requests stop on the previously owned
thread and joins it before the new handle is stored. -/
theorem claim_C9_start_replaces_after_stop_join (w : ThreadWorld) (old : Nat)
    (hold : old < w.threads.length) :
    (PeriodicPublisher.start w (some old)).2 = some w.threads.length ∧
    (PeriodicPublisher.start w (some old)).1.threads.get? old
      = some ⟨true, true⟩ := by
  constructor
  · rfl
  · unfold PeriodicPublisher.start jthreadAssignOld
    simp [List.get?_eq_getElem?, List.getElem?_set_self']
    refine ⟨w.threads[old], ?_⟩
    rw [List.getElem?_append, if_pos hold]
    exact List.getElem?_eq_getElem hold

/-- Witness for C9 amended, at a world with a single running worker. -/
theorem claim_C9_start_replaces_after_stop_join_witness :
    (PeriodicPublisher.start ⟨[⟨false, false⟩]⟩ (some 0)).2 = some 1 ∧
    (PeriodicPublisher.start ⟨[⟨false, false⟩]⟩ (some 0)).1.threads.get? 0
      = some ⟨true, true⟩ :=
  claim_C9_start_replaces_after_stop_join ⟨[⟨false, false⟩]⟩ 0 (by decide)
